import Mathlib

/-!
Verification development for kernel/mm/bench/page_bench05_cross_cpu.c
(prototype-kernel repository).

The benchmark module moves page pointers between two CPUs through a
ptr_ring.  The benchmark-specific code (worker loops, queue
initialisation, scenario runners) is translated from the source file.
The collaborators that live elsewhere in the repository
(ptr_ring.h, kernel/lib/time_bench.c) are modelled from the
specification, and each such definition is marked in its doc comment.

Pointers are modelled as natural numbers; 0 stands for the C NULL
pointer.  Machine integers are modelled as Nat with explicit bounds
where overflow matters (the 32-bit loop-count guard).
-/

/-- Modelled from the spec: the BoundedRingQueue (ptr_ring.h is not part
of src/).  A fixed number of payload slots (`size`), a `head` cursor
(next slot to consume) and a `tail` cursor (next slot to produce into).
Slots are a total function from slot index to contents; only indices
below `size` are ever touched.  An unoccupied slot holds `none`. -/
structure PtrRing where
  size : Nat
  slots : Nat → Option Nat
  head : Nat
  tail : Nat

/-- Modelled from the spec: queue construction — all `size` slots start
unoccupied, both cursors at zero. -/
def ptr_ring_init (n : Nat) : PtrRing :=
  ⟨n, fun _ => none, 0, 0⟩

/-- Modelled from the spec: `produce` fails if the slot at `tail` is
occupied (queue full, also when the ring has zero slots); otherwise it
stores the payload into the `tail` slot and advances `tail` modulo the
capacity. -/
def ptr_ring_produce (q : PtrRing) (p : Nat) : Option PtrRing :=
  if q.size = 0 then none
  else
    match q.slots q.tail with
    | some _ => none
    | none =>
        some { q with slots := Function.update q.slots q.tail (some p),
                      tail := (q.tail + 1) % q.size }

/-- Modelled from the spec: `consume` fails if the slot at `head` is
unoccupied (queue empty); otherwise it clears the slot, returns the
payload and advances `head` modulo the capacity. -/
def ptr_ring_consume (q : PtrRing) : Option (Nat × PtrRing) :=
  if q.size = 0 then none
  else
    match q.slots q.head with
    | none => none
    | some p =>
        some (p, { q with slots := Function.update q.slots q.head none,
                          head := (q.head + 1) % q.size })

/-- Per-worker timing record, following struct time_bench_record as the
benchmark uses it: requested loop count, the `step` field (hijacked by
the workers to store the role tag), and the timing state written by
time_bench_start / time_bench_stop, modelled as two flags plus the
completed count recorded at stop. -/
structure TimeBenchRecord where
  loops : Nat
  step : Nat
  startStamped : Bool
  stopStamped : Bool
  loops_cnt : Nat
deriving DecidableEq

/-- Modelled from the spec: time_bench_start (kernel/lib/time_bench.c is
not under src/) records the start timestamp on the record. -/
def time_bench_start (r : TimeBenchRecord) : TimeBenchRecord :=
  { r with startStamped := true }

/-- Modelled from the spec: time_bench_stop records the stop timestamp
and the completed loop count on the record. -/
def time_bench_stop (r : TimeBenchRecord) (cnt : Nat) : TimeBenchRecord :=
  { r with stopStamped := true, loops_cnt := cnt }

/-- One iteration body of time_cross_cpu_ptr_ring: the enqueue side
produces the (fake, constant 43) page pointer, the dequeue side
consumes one pointer.  Translated from the loop body at lines 126-146
of the source. -/
def ring_loop_body (enq_CPU : Bool) (page : Nat) (_i : Nat) (q : PtrRing) : Option PtrRing :=
  if enq_CPU then ptr_ring_produce q page
  else (ptr_ring_consume q).map Prod.snd

/-- One iteration body of time_cross_cpu_page_alloc_put: the enqueue
side allocates a page (the allocator is the injected collaborator
`alloc`; a failed allocation yields the NULL pointer 0 exactly as
alloc_pages does, and the source performs no NULL check here) and
produces it; the dequeue side consumes one pointer and releases it via
put_page (external, no modelled state).  Translated from lines 188-210
of the source. -/
def palloc_loop_body (enq_CPU : Bool) (alloc : Nat → Option Nat) (i : Nat) (q : PtrRing) :
    Option PtrRing :=
  if enq_CPU then ptr_ring_produce q ((alloc i).getD 0)
  else (ptr_ring_consume q).map Prod.snd

/-- The timed for-loop shared by both worker functions.  `body i q`
performs iteration `i`'s queue operation, returning `none` on failure
(queue full / empty), in which case the loop exits early (the C goto
to finish_early).  `env i q` is the interference of the concurrently
running peer CPU on the shared queue, applied before each iteration;
instantiating `env` with the identity gives the single-worker run.
Returns the completed iteration count (loops_cnt) and the final queue
state. -/
def timedLoop (body : Nat → PtrRing → Option PtrRing) (env : Nat → PtrRing → PtrRing) :
    Nat → Nat → PtrRing → Nat × PtrRing
  | 0, _, q => (0, q)
  | r + 1, i, q =>
      match body i (env i q) with
      | none => (0, env i q)
      | some q2 =>
          let rest := timedLoop body env r (i + 1) q2
          (rest.1 + 1, rest.2)

/-- Running `k` iterations from index `i`, all of which must succeed;
used to characterise the completed count of `timedLoop`. -/
def runK (body : Nat → PtrRing → Option PtrRing) (env : Nat → PtrRing → PtrRing) :
    Nat → Nat → PtrRing → Option PtrRing
  | 0, _, q => some q
  | k + 1, i, q =>
      match body i (env i q) with
      | none => none
      | some q2 => runK body env k (i + 1) q2

/-- Translation of time_cross_cpu_ptr_ring (source lines 89-151).  The
CPU id the worker was pinned to is `cpu`; `env` abstracts the peer
CPU's concurrent queue operations; the record and the (nullable) queue
pointer are the C arguments.  Returns the final record, the final
queue state and the C return value (loops_cnt, or 0 on the early
returns). -/
def time_cross_cpu_ptr_ring (cpu : Nat) (env : Nat → PtrRing → PtrRing)
    (r0 : TimeBenchRecord) (queue : Option PtrRing) :
    TimeBenchRecord × Option PtrRing × Nat :=
  let enq_CPU : Bool := cpu % 2 == 0
  let page : Nat := 43
  let r1 := { r0 with step := if enq_CPU then 1 else 0 }
  match queue with
  | none => (r1, none, 0)
  | some q =>
      if 2 ^ 32 - 1 ≤ 2 * r1.loops then (r1, some q, 0)
      else
        let r2 := time_bench_start r1
        let res := timedLoop (ring_loop_body enq_CPU page) env r1.loops 0 q
        (time_bench_stop r2 res.1, some res.2, res.1)

/-- Translation of time_cross_cpu_page_alloc_put (source lines
154-215).  Identical control flow to time_cross_cpu_ptr_ring except
that the enqueue side allocates a fresh page each iteration through
the injected allocator `alloc` and the dequeue side put_pages the
consumed pointer. -/
def time_cross_cpu_page_alloc_put (cpu : Nat) (env : Nat → PtrRing → PtrRing)
    (alloc : Nat → Option Nat) (r0 : TimeBenchRecord) (queue : Option PtrRing) :
    TimeBenchRecord × Option PtrRing × Nat :=
  let enq_CPU : Bool := cpu % 2 == 0
  let r1 := { r0 with step := if enq_CPU then 1 else 0 }
  match queue with
  | none => (r1, none, 0)
  | some q =>
      if 2 ^ 32 - 1 ≤ 2 * r1.loops then (r1, some q, 0)
      else
        let r2 := time_bench_start r1
        let res := timedLoop (palloc_loop_body enq_CPU alloc) env r1.loops 0 q
        (time_bench_stop r2 res.1, some res.2, res.1)

/-! ## Representation invariant for the ring queue

`RingRep q L` states that the ring `q` holds exactly the payload list `L`,
oldest first: walking the slots from `head`, the first `L.length`
slots hold `L` in order and every remaining slot (up to capacity) is
unoccupied, with `tail` positioned after the live range.  This is the
spec's invariant: a slot holds a live payload iff it lies in
`[head, tail)` modulo capacity. -/

def RingRep (q : PtrRing) (L : List Nat) : Prop :=
  0 < q.size ∧ q.head < q.size ∧ L.length ≤ q.size ∧
  q.tail = (q.head + L.length) % q.size ∧
  ∀ i, i < q.size → q.slots ((q.head + i) % q.size) = L[i]?

instance (q : PtrRing) (L : List Nat) : Decidable (RingRep q L) := by
  unfold RingRep; infer_instance

theorem rep_init (n : Nat) (hn : 0 < n) : RingRep (ptr_ring_init n) [] := by
  refine ⟨hn, hn, by simp, by simp [ptr_ring_init], ?_⟩
  intro i _
  simp [ptr_ring_init]

theorem rep_mod_inj {n h i j : Nat} (hi : i < n) (hj : j < n)
    (e : (h + i) % n = (h + j) % n) : i = j := by
  have h1 : Nat.ModEq n i j := Nat.ModEq.add_left_cancel' h e
  have h2 : i % n = j % n := h1
  rwa [Nat.mod_eq_of_lt hi, Nat.mod_eq_of_lt hj] at h2

theorem rep_tail_lt {q : PtrRing} {L : List Nat} (h : RingRep q L) : q.tail < q.size := by
  obtain ⟨hn, -, -, ht, -⟩ := h
  rw [ht]; exact Nat.mod_lt _ hn

theorem produce_succ {q : PtrRing} {L : List Nat} (h : RingRep q L) (p : Nat)
    (hlt : L.length < q.size) :
    ptr_ring_produce q p =
      some { q with slots := Function.update q.slots q.tail (some p),
                    tail := (q.tail + 1) % q.size } ∧
    RingRep { q with slots := Function.update q.slots q.tail (some p),
                     tail := (q.tail + 1) % q.size } (L ++ [p]) := by
  obtain ⟨hn, hh, hle, ht, hs⟩ := h
  have hslot : q.slots q.tail = none := by
    have := hs L.length hlt
    rw [List.getElem?_eq_none (le_refl _)] at this
    rw [ht]; exact this
  constructor
  · unfold ptr_ring_produce
    rw [if_neg (Nat.pos_iff_ne_zero.mp hn), hslot]
  · have hlen : (L ++ [p]).length = L.length + 1 := by simp
    refine ⟨hn, hh, by simpa using hlt, ?_, ?_⟩
    · show (q.tail + 1) % q.size = (q.head + (L ++ [p]).length) % q.size
      rw [ht, hlen]
      calc ((q.head + L.length) % q.size + 1) % q.size
          = (q.head + L.length + 1) % q.size :=
            Nat.ModEq.add_right 1 (Nat.mod_modEq _ _)
        _ = (q.head + (L.length + 1)) % q.size := by rw [Nat.add_assoc]
    · intro i hi
      show Function.update q.slots q.tail (some p) ((q.head + i) % q.size) = (L ++ [p])[i]?
      rcases eq_or_ne i L.length with rfl | hne
      · rw [← ht, Function.update_same, List.getElem?_concat_length]
      · have hidx : (q.head + i) % q.size ≠ q.tail := by
          rw [ht]
          intro e
          exact hne (rep_mod_inj hi hlt e)
        rw [Function.update_noteq hidx, hs i hi]
        rcases Nat.lt_or_ge i L.length with hlt2 | hge
        · rw [List.getElem?_append_left hlt2]
        · have hgt : L.length < i := lt_of_le_of_ne hge (fun e => hne e.symm)
          rw [List.getElem?_eq_none (le_of_lt hgt),
              List.getElem?_eq_none (by simpa using hgt)]

theorem produce_fail {q : PtrRing} {L : List Nat} (h : RingRep q L)
    (hfull : L.length = q.size) (p : Nat) : ptr_ring_produce q p = none := by
  obtain ⟨hn, hh, hle, ht, hs⟩ := h
  have hht : q.tail = q.head := by
    rw [ht, hfull, Nat.add_mod_right, Nat.mod_eq_of_lt hh]
  have h0 : q.slots q.head = L[0]? := by
    have := hs 0 hn
    rwa [Nat.add_zero, Nat.mod_eq_of_lt hh] at this
  have hL : L ≠ [] := by
    intro e; rw [e] at hfull; simp at hfull; omega
  obtain ⟨x, L', rfl⟩ := List.exists_cons_of_ne_nil hL
  unfold ptr_ring_produce
  rw [if_neg (Nat.pos_iff_ne_zero.mp hn), hht, h0]
  simp

theorem consume_succ {q : PtrRing} {x : Nat} {L : List Nat} (h : RingRep q (x :: L)) :
    ptr_ring_consume q =
      some (x, { q with slots := Function.update q.slots q.head none,
                        head := (q.head + 1) % q.size }) ∧
    RingRep { q with slots := Function.update q.slots q.head none,
                     head := (q.head + 1) % q.size } L := by
  obtain ⟨hn, hh, hle, ht, hs⟩ := h
  have h0 : q.slots q.head = some x := by
    have := hs 0 hn
    rwa [Nat.add_zero, Nat.mod_eq_of_lt hh, List.getElem?_cons_zero] at this
  constructor
  · unfold ptr_ring_consume
    rw [if_neg (Nat.pos_iff_ne_zero.mp hn), h0]
  · refine ⟨hn, Nat.mod_lt _ hn, ?_, ?_, ?_⟩
    · show L.length ≤ q.size
      simp at hle; omega
    · show q.tail = ((q.head + 1) % q.size + L.length) % q.size
      rw [ht]
      calc (q.head + (x :: L).length) % q.size
          = (q.head + 1 + L.length) % q.size := by
            simp [List.length_cons]; ring_nf
        _ = ((q.head + 1) % q.size + L.length) % q.size :=
            (Nat.ModEq.add_right L.length (Nat.mod_modEq _ _)).symm
    · intro i hi
      have hi2 : i < q.size := hi
      show Function.update q.slots q.head none (((q.head + 1) % q.size + i) % q.size) = L[i]?
      have hidx : ((q.head + 1) % q.size + i) % q.size = (q.head + (1 + i)) % q.size := by
        calc ((q.head + 1) % q.size + i) % q.size
            = (q.head + 1 + i) % q.size := Nat.ModEq.add_right i (Nat.mod_modEq _ _)
          _ = (q.head + (1 + i)) % q.size := by rw [Nat.add_assoc]
      rw [hidx]
      rcases Nat.lt_or_ge (1 + i) q.size with hlt | hge
      · have hne : (q.head + (1 + i)) % q.size ≠ q.head := by
          intro e
          have e2 : (q.head + (1 + i)) % q.size = (q.head + 0) % q.size := by
            rw [e, Nat.add_zero, Nat.mod_eq_of_lt hh]
          have := rep_mod_inj hlt hn e2
          omega
        rw [Function.update_noteq hne]
        have := hs (1 + i) hlt
        rw [this]
        simp [List.getElem?_cons_succ, Nat.add_comm 1 i]
      · have hieq : 1 + i = q.size := by omega
        have hwrap : (q.head + (1 + i)) % q.size = q.head := by
          rw [hieq, Nat.add_mod_right, Nat.mod_eq_of_lt hh]
        rw [hwrap, Function.update_same]
        have hLlen : L.length ≤ i := by simp at hle; omega
        rw [List.getElem?_eq_none hLlen]

theorem consume_fail {q : PtrRing} (h : RingRep q []) : ptr_ring_consume q = none := by
  obtain ⟨hn, hh, -, -, hs⟩ := h
  have h0 : q.slots q.head = none := by
    have := hs 0 hn
    rwa [Nat.add_zero, Nat.mod_eq_of_lt hh, List.getElem?_nil] at this
  unfold ptr_ring_consume
  rw [if_neg (Nat.pos_iff_ne_zero.mp hn), h0]

theorem rep_length_le {q : PtrRing} {L : List Nat} (h : RingRep q L) : L.length ≤ q.size :=
  h.2.2.1

/-- Repeatedly consume from the ring until it reports empty (or the
fuel runs out); the capacity is always enough fuel.  This is the
draining pass of the teardown. -/
def drainList : Nat → PtrRing → List Nat
  | 0, _ => []
  | fuel + 1, q =>
      match ptr_ring_consume q with
      | none => []
      | some (p, q2) => p :: drainList fuel q2

/-- Translation of destructor_put_page (source lines 311-314): hands
the pointer to put_page.  put_page is external; the destructor is
modelled as returning the pointer it releases so that teardown can be
observed as the list of released payloads. -/
def destructor_put_page (p : Nat) : Nat := p

/-- Modelled from the spec: ptr_ring_cleanup (ptr_ring.h, not under
src/) — the teardown drain. It invokes the release callback on every
still-occupied slot between head and tail, exactly once each, then
frees the ring; with a NULL destructor nothing is released.  Returns
the list of payloads passed to the destructor, in drain order. -/
def ptr_ring_cleanup (q : PtrRing) (destroy : Option (Nat → Nat)) : List Nat :=
  match destroy with
  | none => []
  | some f => (drainList q.size q).map f

theorem drainList_eq {L : List Nat} :
    ∀ {q : PtrRing} {fuel : Nat}, RingRep q L → L.length ≤ fuel → drainList fuel q = L := by
  induction L with
  | nil =>
      intro q fuel h _
      cases fuel with
      | zero => rfl
      | succ fuel => unfold drainList; rw [consume_fail h]
  | cons x L ih =>
      intro q fuel h hle
      cases fuel with
      | zero => simp at hle
      | succ fuel =>
          obtain ⟨heq, hrep⟩ := consume_succ h
          unfold drainList
          rw [heq]
          have := ih hrep (by simpa using Nat.lt_succ_iff.mp (Nat.lt_of_lt_of_le (Nat.lt_succ_self _) hle))
          simp only []
          rw [this]

theorem cleanup_of_rep {q : PtrRing} {L : List Nat} (h : RingRep q L) :
    ptr_ring_cleanup q (some destructor_put_page) = L := by
  unfold ptr_ring_cleanup
  rw [drainList_eq h (rep_length_le h)]
  simp only [destructor_put_page, List.map_id_fun, id]
  exact List.map_id L

theorem cleanup_none (q : PtrRing) : ptr_ring_cleanup q none = [] := rfl

/-- A queue operation issued by the (single) producer or the (single)
consumer, used to express an arbitrary interleaving of the two roles
as a sequential trace. -/
inductive QOp where
  | enq (p : Nat)
  | deq
deriving DecidableEq

/-- Run a trace of queue operations.  Returns the final ring, the
payloads of the successful produce calls (in order) and the payloads
returned by the successful consume calls (in order).  Failed
operations (queue full / queue empty) leave the ring unchanged. -/
def runOps : List QOp → PtrRing → PtrRing × List Nat × List Nat
  | [], q => (q, [], [])
  | QOp.enq p :: rest, q =>
      match ptr_ring_produce q p with
      | none => runOps rest q
      | some q2 =>
          let r := runOps rest q2
          (r.1, p :: r.2.1, r.2.2)
  | QOp.deq :: rest, q =>
      match ptr_ring_consume q with
      | none => runOps rest q
      | some (p, q2) =>
          let r := runOps rest q2
          (r.1, r.2.1, p :: r.2.2)

theorem runOps_fifo_inv :
    ∀ (ops : List QOp) (q : PtrRing) (L : List Nat), RingRep q L →
      ∃ Lf, RingRep (runOps ops q).1 Lf ∧
        (runOps ops q).2.2 ++ Lf = L ++ (runOps ops q).2.1 := by
  intro ops
  induction ops with
  | nil => intro q L h; exact ⟨L, h, by simp [runOps]⟩
  | cons op rest ih =>
      intro q L h
      cases op with
      | enq p =>
          rcases Nat.lt_or_ge L.length q.size with hlt | hge
          · obtain ⟨heq, hrep⟩ := produce_succ h p hlt
            obtain ⟨Lf, hLf, hcat⟩ := ih _ _ hrep
            refine ⟨Lf, ?_, ?_⟩
            · show RingRep (runOps (QOp.enq p :: rest) q).1 Lf
              unfold runOps
              rw [heq]
              exact hLf
            · show (runOps (QOp.enq p :: rest) q).2.2 ++ Lf
                  = L ++ (runOps (QOp.enq p :: rest) q).2.1
              unfold runOps
              rw [heq]
              simpa [List.append_assoc] using hcat
          · have hfull : L.length = q.size := le_antisymm (rep_length_le h) hge
            have heq := produce_fail h hfull p
            obtain ⟨Lf, hLf, hcat⟩ := ih q L h
            refine ⟨Lf, ?_, ?_⟩
            · show RingRep (runOps (QOp.enq p :: rest) q).1 Lf
              unfold runOps
              rw [heq]
              exact hLf
            · show (runOps (QOp.enq p :: rest) q).2.2 ++ Lf
                  = L ++ (runOps (QOp.enq p :: rest) q).2.1
              unfold runOps
              rw [heq]
              exact hcat
      | deq =>
          cases L with
          | nil =>
              have heq := consume_fail h
              obtain ⟨Lf, hLf, hcat⟩ := ih q [] h
              refine ⟨Lf, ?_, ?_⟩
              · show RingRep (runOps (QOp.deq :: rest) q).1 Lf
                unfold runOps
                rw [heq]
                exact hLf
              · show (runOps (QOp.deq :: rest) q).2.2 ++ Lf
                    = [] ++ (runOps (QOp.deq :: rest) q).2.1
                unfold runOps
                rw [heq]
                exact hcat
          | cons x L2 =>
              obtain ⟨heq, hrep⟩ := consume_succ h
              obtain ⟨Lf, hLf, hcat⟩ := ih _ _ hrep
              refine ⟨Lf, ?_, ?_⟩
              · show RingRep (runOps (QOp.deq :: rest) q).1 Lf
                unfold runOps
                rw [heq]
                exact hLf
              · show (runOps (QOp.deq :: rest) q).2.2 ++ Lf
                    = (x :: L2) ++ (runOps (QOp.deq :: rest) q).2.1
                unfold runOps
                rw [heq]
                simpa using hcat

theorem timedLoop_all {body : Nat → PtrRing → Option PtrRing} {env : Nat → PtrRing → PtrRing} :
    ∀ {r i : Nat} {q qf : PtrRing}, runK body env r i q = some qf →
      timedLoop body env r i q = (r, qf) := by
  intro r
  induction r with
  | zero =>
      intro i q qf h
      simp [runK] at h
      simp [timedLoop, h]
  | succ r ih =>
      intro i q qf h
      unfold runK at h
      unfold timedLoop
      cases hb : body i (env i q) with
      | none => rw [hb] at h; exact absurd h (by simp)
      | some q2 =>
          rw [hb] at h
          show ((timedLoop body env r (i + 1) q2).1 + 1,
                (timedLoop body env r (i + 1) q2).2) = (r + 1, qf)
          rw [ih h]

theorem timedLoop_early {body : Nat → PtrRing → Option PtrRing} {env : Nat → PtrRing → PtrRing} :
    ∀ {k : Nat} {r i : Nat} {q qk : PtrRing}, runK body env k i q = some qk →
      body (i + k) (env (i + k) qk) = none → k < r →
      timedLoop body env r i q = (k, env (i + k) qk) := by
  intro k
  induction k with
  | zero =>
      intro r i q qk h hfail hlt
      simp [runK] at h
      subst h
      cases r with
      | zero => omega
      | succ r =>
          unfold timedLoop
          rw [Nat.add_zero] at hfail
          rw [hfail]
          simp
  | succ k ih =>
      intro r i q qk h hfail hlt
      unfold runK at h
      cases r with
      | zero => omega
      | succ r =>
          unfold timedLoop
          cases hb : body i (env i q) with
          | none => rw [hb] at h; exact absurd h (by simp)
          | some q2 =>
              rw [hb] at h
              have hfail2 : body (i + 1 + k) (env (i + 1 + k) qk) = none := by
                have harith : i + 1 + k = i + (k + 1) := by omega
                rw [harith]; exact hfail
              show ((timedLoop body env r (i + 1) q2).1 + 1,
                    (timedLoop body env r (i + 1) q2).2) = (k + 1, env (i + (k + 1)) qk)
              rw [ih h hfail2 (by omega)]
              have harith : i + 1 + k = i + (k + 1) := by omega
              rw [harith]

/-- The prefill loop of init_queue (source lines 264-278): `use_fake`
distinguishes the baseline scenario (constant fake pointer 42, no
allocation) from the real-payload scenario (allocate each entry via
the injected allocator; a NULL result aborts).  A failed produce
(queue cannot hold the entry) also aborts.  Returns the success flag
and the (possibly partially filled) ring. -/
def prefillLoop (alloc : Nat → Option Nat) (use_fake : Bool) :
    Nat → Nat → PtrRing → Bool × PtrRing
  | 0, _, q => (true, q)
  | r + 1, i, q =>
      match (if use_fake then some 42 else alloc i) with
      | none => (false, q)
      | some page =>
          match ptr_ring_produce q page with
          | none => (false, q)
          | some q2 => prefillLoop alloc use_fake r (i + 1) q2

/-- Translation of init_queue (source lines 239-281): create the ring
(the internal kmalloc of ptr_ring_init is modelled as succeeding) and
prefill it with `prefill_cnt` payloads. -/
def init_queue (alloc : Nat → Option Nat) (q_size prefill_cnt : Nat) (use_fake : Bool) :
    Bool × PtrRing :=
  prefillLoop alloc use_fake prefill_cnt 0 (ptr_ring_init q_size)

theorem prefill_fake_ok {alloc : Nat → Option Nat} :
    ∀ {r i : Nat} {q : PtrRing} {L : List Nat}, RingRep q L → L.length + r ≤ q.size →
      ∃ qf, prefillLoop alloc true r i q = (true, qf) ∧
        RingRep qf (L ++ List.replicate r 42) := by
  intro r
  induction r with
  | zero =>
      intro i q L h _
      exact ⟨q, rfl, by simpa using h⟩
  | succ r ih =>
      intro i q L h hle
      obtain ⟨heq, hrep⟩ := produce_succ h 42 (by omega)
      obtain ⟨qf, hqf, hrepf⟩ := ih (i := i + 1) hrep (by simp; omega)
      refine ⟨qf, ?_, ?_⟩
      · simp only [prefillLoop, if_true, heq]
        exact hqf
      · have : (L ++ [42]) ++ List.replicate r 42 = L ++ List.replicate (r + 1) 42 := by
          rw [List.append_assoc, List.replicate_succ]
          rfl
        rwa [this] at hrepf

theorem prefill_fake_fail {alloc : Nat → Option Nat} :
    ∀ {r i : Nat} {q : PtrRing} {L : List Nat}, RingRep q L → q.size < L.length + r →
      (prefillLoop alloc true r i q).1 = false := by
  intro r
  induction r with
  | zero =>
      intro i q L h hlt
      have := rep_length_le h
      omega
  | succ r ih =>
      intro i q L h hlt
      rcases Nat.lt_or_ge L.length q.size with hl | hg
      · obtain ⟨heq, hrep⟩ := produce_succ h 42 hl
        simp only [prefillLoop, if_true, heq]
        exact ih (i := i + 1) hrep (by simp; omega)
      · have hfull : L.length = q.size := le_antisymm (rep_length_le h) hg
        have heq := produce_fail h hfull 42
        simp only [prefillLoop, if_true, heq]

theorem prefill_real_fail {alloc : Nat → Option Nat} {f : Nat → Nat} :
    ∀ {k r i : Nat} {q : PtrRing} {L : List Nat}, RingRep q L →
      L.length + k ≤ q.size →
      (∀ j, j < k → alloc (i + j) = some (f (i + j))) →
      alloc (i + k) = none → k < r →
      ∃ qk, prefillLoop alloc false r i q = (false, qk) ∧
        RingRep qk (L ++ (List.range k).map (fun j => f (i + j))) := by
  intro k
  induction k with
  | zero =>
      intro r i q L h _ _ hnone hlt
      cases r with
      | zero => omega
      | succ r =>
          refine ⟨q, ?_, by simpa using h⟩
          rw [Nat.add_zero] at hnone
          simp only [prefillLoop, if_false, Bool.false_eq_true, hnone]
  | succ k ih =>
      intro r i q L h hle hsome hnone hlt
      cases r with
      | zero => omega
      | succ r =>
          have h0 : alloc i = some (f i) := by
            have := hsome 0 (Nat.succ_pos k)
            rwa [Nat.add_zero] at this
          obtain ⟨heq, hrep⟩ := produce_succ h (f i) (by omega)
          have hsome2 : ∀ j, j < k → alloc (i + 1 + j) = some (f (i + 1 + j)) := by
            intro j hj
            have := hsome (j + 1) (by omega)
            have harith : i + (j + 1) = i + 1 + j := by omega
            rwa [harith] at this
          have hnone2 : alloc (i + 1 + k) = none := by
            have harith : i + 1 + k = i + (k + 1) := by omega
            rwa [harith]
          obtain ⟨qk, hqk, hrepk⟩ := ih (r := r) (i := i + 1) hrep (by simp; omega) hsome2 hnone2 (by omega)
          refine ⟨qk, ?_, ?_⟩
          · simp only [prefillLoop, if_false, Bool.false_eq_true, h0, heq]
            exact hqk
          · have hlist : (L ++ [f i]) ++ (List.range k).map (fun j => f (i + 1 + j))
                = L ++ (List.range (k + 1)).map (fun j => f (i + j)) := by
              rw [List.append_assoc, List.range_succ_eq_map, List.map_cons, List.map_map]
              simp only [Nat.add_zero, List.singleton_append]
              congr 1
              congr 1
              apply List.map_congr_left
              intro a _
              simp only [Function.comp_apply, Nat.succ_eq_add_one]
              have harith : i + 1 + a = i + (a + 1) := by omega
              rw [harith]
            rwa [hlist] at hrepk

/-- Observable outcome of one scenario function: whether its run_flags
bit let it run, whether init_queue succeeded, whether the parallel
workers were run, the collected per-CPU records (CPU id, final record,
worker return value), whether the teardown cleanup ran, whether it was
given a destructor callback, and the payloads handed to that
destructor. -/
structure ScenarioResult where
  ran : Bool
  initOk : Bool
  workersRun : Bool
  records : List (Nat × TimeBenchRecord × Nat)
  cleanedUp : Bool
  destructorUsed : Bool
  released : List Nat
deriving DecidableEq

/-- The outcome of a scenario whose run_flags bit is clear: the C
function returns at the run_or_return macro before building anything. -/
def ScenarioResult.skipped : ScenarioResult :=
  ⟨false, false, false, [], false, false, []⟩

/-- Modelled from the spec: time_bench_run_concurrent
(kernel/lib/time_bench.c, not under src/) spawns one worker per CPU of
the cpumask, pins it, releases all workers together, runs `func` on
each with a fresh record and the shared data pointer, and collects the
records.  The true interleaving of the workers on the shared ring is
abstracted: each worker's `func` closure carries its own view of the
peer interference, and the list below has one entry per spawned
worker. -/
def time_bench_run_concurrent (loops step : Nat) (data : Option PtrRing) (cpus : List Nat)
    (func : Nat → TimeBenchRecord → Option PtrRing → TimeBenchRecord × Option PtrRing × Nat) :
    List (Nat × TimeBenchRecord × Nat) :=
  cpus.map (fun cpu =>
    let r := func cpu ⟨loops, step, false, false, 0⟩ data
    (cpu, r.1, r.2.2))

/-- Translation of run_parallel (source lines 218-237): allocate the
per-CPU bookkeeping (kzalloc, modelled as succeeding), run the
concurrent benchmark, print the stats (output not modelled) and
return the records. -/
def run_parallel (loops step : Nat) (cpus : List Nat) (data : Option PtrRing)
    (func : Nat → TimeBenchRecord → Option PtrRing → TimeBenchRecord × Option PtrRing × Nat) :
    List (Nat × TimeBenchRecord × Nat) :=
  time_bench_run_concurrent loops step data cpus func

/-- Translation of run_bench_baseline_ptr_ring_cross_cpu (source lines
283-309): gated by run_flags bit 1 (bit_run_bench_ptr_ring_baseline),
builds a queue prefilled with fake pointers, runs the two pinned
workers on CPUs 0 and 1, and tears the queue down with a NULL
destructor.  `envs cpu` is worker `cpu`'s view of the peer
interference and `qFinal` the state of the shared ring after the
concurrent run, both abstracting the true interleaving. -/
def run_bench_baseline_ptr_ring_cross_cpu (flags loops q_size prefill_cnt : Nat)
    (envs : Nat → Nat → PtrRing → PtrRing) (qFinal : PtrRing → PtrRing) : ScenarioResult :=
  if flags.testBit 1 = false then ScenarioResult.skipped
  else
    let init := init_queue (fun _ => none) q_size prefill_cnt true
    if init.1 then
      let recs := run_parallel loops 0 [0, 1] (some init.2)
        (fun cpu r qq => time_cross_cpu_ptr_ring cpu (envs cpu) r qq)
      { ran := true, initOk := true, workersRun := true, records := recs,
        cleanedUp := true, destructorUsed := false,
        released := ptr_ring_cleanup (qFinal init.2) none }
    else
      { ran := true, initOk := false, workersRun := false, records := [],
        cleanedUp := true, destructorUsed := false,
        released := ptr_ring_cleanup init.2 none }

/-- Translation of run_bench_cross_cpu_page_alloc_put (source lines
316-342): gated by run_flags bit 2
(bit_run_bench_cross_cpu_page_alloc_put), builds a queue prefilled
with really allocated pages (allocator `allocInit`), runs the two
pinned workers (per-CPU loop allocator `allocLoop`), and tears the
queue down with the destructor_put_page callback — on the failure
path as well, which drains the partially built queue. -/
def run_bench_cross_cpu_page_alloc_put (flags loops q_size prefill_cnt : Nat)
    (allocInit : Nat → Option Nat) (allocLoop : Nat → Nat → Option Nat)
    (envs : Nat → Nat → PtrRing → PtrRing) (qFinal : PtrRing → PtrRing) : ScenarioResult :=
  if flags.testBit 2 = false then ScenarioResult.skipped
  else
    let init := init_queue allocInit q_size prefill_cnt false
    if init.1 then
      let recs := run_parallel loops 0 [0, 1] (some init.2)
        (fun cpu r qq => time_cross_cpu_page_alloc_put cpu (envs cpu) (allocLoop cpu) r qq)
      { ran := true, initOk := true, workersRun := true, records := recs,
        cleanedUp := true, destructorUsed := true,
        released := ptr_ring_cleanup (qFinal init.2) (some destructor_put_page) }
    else
      { ran := true, initOk := false, workersRun := false, records := [],
        cleanedUp := true, destructorUsed := true,
        released := ptr_ring_cleanup init.2 (some destructor_put_page) }

/-- The allocation loop of time_single_cpu_page_alloc_put (source lines
59-64): allocate and immediately put_page, `none` as soon as the
allocator fails, otherwise the completed count. -/
def singleCpuLoop (alloc : Nat → Option Nat) : Nat → Nat → Option Nat
  | 0, i => some i
  | r + 1, i =>
      match alloc i with
      | none => none
      | some _ => singleCpuLoop alloc r (i + 1)

/-- Translation of time_single_cpu_page_alloc_put (source lines 50-67):
the same-CPU comparison loop.  Note the source returns 0 on allocation
failure without calling time_bench_stop. -/
def time_single_cpu_page_alloc_put (alloc : Nat → Option Nat) (r0 : TimeBenchRecord) :
    TimeBenchRecord × Nat :=
  let r1 := time_bench_start r0
  match singleCpuLoop alloc r0.loops 0 with
  | none => (r1, 0)
  | some i => (time_bench_stop r1 i, i)

/-- Modelled from the spec: time_bench_loop (kernel/lib/time_bench.c,
not under src/) runs a measurement function once on a fresh record. -/
def time_bench_loop (loops step : Nat)
    (func : TimeBenchRecord → TimeBenchRecord × Nat) : TimeBenchRecord × Nat :=
  func ⟨loops, step, false, false, 0⟩

/-- Translation of run_bench_order0_compare (source lines 69-75): gated
by run_flags bit 0 (bit_run_bench_order0_compare); `none` models the
immediate run_or_return exit. -/
def run_bench_order0_compare (flags loops : Nat) (alloc : Nat → Option Nat) :
    Option (TimeBenchRecord × Nat) :=
  if flags.testBit 0 = false then none
  else some (time_bench_loop loops 0 (time_single_cpu_page_alloc_put alloc))

/-- Translation of run_timing_tests (source lines 344-367): the three
scenarios run unconditionally in sequence with the hardcoded
q_size = 32000 and prefill = 8000; each scenario's oracles
(allocators, peer interference, final ring state) are injected. -/
def run_timing_tests (flags loops : Nat) (allocSingle allocInit : Nat → Option Nat)
    (allocLoop : Nat → Nat → Option Nat)
    (envsB envsP : Nat → Nat → PtrRing → PtrRing) (qFinalB qFinalP : PtrRing → PtrRing) :
    Option (TimeBenchRecord × Nat) × ScenarioResult × ScenarioResult :=
  (run_bench_order0_compare flags loops allocSingle,
   run_bench_baseline_ptr_ring_cross_cpu flags loops 32000 8000 envsB qFinalB,
   run_bench_cross_cpu_page_alloc_put flags loops 32000 8000 allocInit allocLoop envsP qFinalP)

/-- C9: For every invocation of a cross-CPU worker function with a NULL
queue pointer, the worker returns a completed count of 0 immediately,
before recording a start timestamp and without performing any queue
operation.  The result is the input record with only the role tag
written (startStamped and stopStamped keep their input values, so no
start timestamp was recorded), no queue, and return value 0. -/
theorem c9_null_queue_early_return (cpu : Nat) (env : Nat → PtrRing → PtrRing)
    (alloc : Nat → Option Nat) (r0 : TimeBenchRecord) :
    time_cross_cpu_ptr_ring cpu env r0 none
      = ({ r0 with step := if cpu % 2 == 0 then 1 else 0 }, none, 0) ∧
    time_cross_cpu_page_alloc_put cpu env alloc r0 none
      = ({ r0 with step := if cpu % 2 == 0 then 1 else 0 }, none, 0) := by
  exact ⟨rfl, rfl⟩

/-- C3: The worker role is decided inside the worker function by the
parity of the CPU id the worker runs on: an even CPU id gives the
producer (enqueue) role, an odd one the consumer (dequeue) role.  The
role is recorded in the record's step field (1 = producer,
0 = consumer) regardless of what step value the role-agnostic runner
passed in, and the loop body performs a produce exactly for even CPU
ids and a consume exactly for odd ones, in both worker functions. -/
theorem c3_role_from_cpu_parity (cpu i : Nat) (env : Nat → PtrRing → PtrRing)
    (alloc : Nat → Option Nat) (r0 : TimeBenchRecord) (queue : Option PtrRing)
    (q : PtrRing) :
    (time_cross_cpu_ptr_ring cpu env r0 queue).1.step
        = (if cpu % 2 == 0 then 1 else 0) ∧
    (time_cross_cpu_page_alloc_put cpu env alloc r0 queue).1.step
        = (if cpu % 2 == 0 then 1 else 0) ∧
    (cpu % 2 = 0 → ring_loop_body (cpu % 2 == 0) 43 i q = ptr_ring_produce q 43) ∧
    (cpu % 2 ≠ 0 →
      ring_loop_body (cpu % 2 == 0) 43 i q = (ptr_ring_consume q).map Prod.snd) ∧
    (cpu % 2 = 0 →
      palloc_loop_body (cpu % 2 == 0) alloc i q = ptr_ring_produce q ((alloc i).getD 0)) ∧
    (cpu % 2 ≠ 0 →
      palloc_loop_body (cpu % 2 == 0) alloc i q = (ptr_ring_consume q).map Prod.snd) := by
  refine ⟨?_, ?_, ?_, ?_, ?_, ?_⟩
  · cases queue with
    | none => rfl
    | some q2 =>
        simp [time_cross_cpu_ptr_ring, time_bench_start, time_bench_stop]
        split <;> rfl
  · cases queue with
    | none => rfl
    | some q2 =>
        simp [time_cross_cpu_page_alloc_put, time_bench_start, time_bench_stop]
        split <;> rfl
  · intro h
    simp [ring_loop_body, h]
  · intro h
    have hb : (cpu % 2 == 0) = false := beq_eq_false_iff_ne.mpr h
    simp [ring_loop_body, hb]
  · intro h
    simp [palloc_loop_body, h]
  · intro h
    have hb : (cpu % 2 == 0) = false := beq_eq_false_iff_ne.mpr h
    simp [palloc_loop_body, hb]

/-- Witness for c3_role_from_cpu_parity at the concrete CPU ids 2
(even, producer) and 3 (odd, consumer). -/
theorem c3_role_from_cpu_parity_witness :
    ring_loop_body (2 % 2 == 0) 43 0 (ptr_ring_init 2)
      = ptr_ring_produce (ptr_ring_init 2) 43 ∧
    ring_loop_body (3 % 2 == 0) 43 0 (ptr_ring_init 2)
      = (ptr_ring_consume (ptr_ring_init 2)).map Prod.snd ∧
    palloc_loop_body (2 % 2 == 0) (fun _ => some 9) 0 (ptr_ring_init 2)
      = ptr_ring_produce (ptr_ring_init 2) (((fun (_ : Nat) => some 9) 0).getD 0) ∧
    palloc_loop_body (3 % 2 == 0) (fun _ => some 9) 0 (ptr_ring_init 2)
      = (ptr_ring_consume (ptr_ring_init 2)).map Prod.snd :=
  ⟨(c3_role_from_cpu_parity 2 0 (fun _ q => q) (fun _ => some 9)
      ⟨1, 0, false, false, 0⟩ none (ptr_ring_init 2)).2.2.1 (by decide),
   (c3_role_from_cpu_parity 3 0 (fun _ q => q) (fun _ => some 9)
      ⟨1, 0, false, false, 0⟩ none (ptr_ring_init 2)).2.2.2.1 (by decide),
   (c3_role_from_cpu_parity 2 0 (fun _ q => q) (fun _ => some 9)
      ⟨1, 0, false, false, 0⟩ none (ptr_ring_init 2)).2.2.2.2.1 (by decide),
   (c3_role_from_cpu_parity 3 0 (fun _ q => q) (fun _ => some 9)
      ⟨1, 0, false, false, 0⟩ none (ptr_ring_init 2)).2.2.2.2.2 (by decide)⟩

/-- C1 (amended): For every configuration whose loop count times 2
reaches or exceeds the 32-bit counter range (the guard condition is
loop_count × 2 ≥ 2^32 − 1; in particular loop_count = 2^31 trips it),
the run is rejected inside each worker function, after the workers
have been spawned: the worker returns completed count 0 before
recording a start timestamp and before any queue operation, and the
only record field it has written is the role tag (step).  The
rejection does not happen before workers are spawned — see the
counterexample theorem. -/
theorem c1_amended_guard_rejects_inside_worker (cpu : Nat) (env : Nat → PtrRing → PtrRing)
    (alloc : Nat → Option Nat) (r0 : TimeBenchRecord) (q : PtrRing)
    (hg : 2 ^ 32 - 1 ≤ 2 * r0.loops) :
    time_cross_cpu_ptr_ring cpu env r0 (some q)
      = ({ r0 with step := if cpu % 2 == 0 then 1 else 0 }, some q, 0) ∧
    time_cross_cpu_page_alloc_put cpu env alloc r0 (some q)
      = ({ r0 with step := if cpu % 2 == 0 then 1 else 0 }, some q, 0) := by
  constructor
  · show (if 2 ^ 32 - 1 ≤ 2 * r0.loops then
            ({ r0 with step := if cpu % 2 == 0 then 1 else 0 }, some q, 0)
          else
            (time_bench_stop
               (time_bench_start { r0 with step := if cpu % 2 == 0 then 1 else 0 })
               (timedLoop (ring_loop_body (cpu % 2 == 0) 43) env r0.loops 0 q).1,
             some (timedLoop (ring_loop_body (cpu % 2 == 0) 43) env r0.loops 0 q).2,
             (timedLoop (ring_loop_body (cpu % 2 == 0) 43) env r0.loops 0 q).1))
        = ({ r0 with step := if cpu % 2 == 0 then 1 else 0 }, some q, 0)
    rw [if_pos hg]
  · show (if 2 ^ 32 - 1 ≤ 2 * r0.loops then
            ({ r0 with step := if cpu % 2 == 0 then 1 else 0 }, some q, 0)
          else
            (time_bench_stop
               (time_bench_start { r0 with step := if cpu % 2 == 0 then 1 else 0 })
               (timedLoop (palloc_loop_body (cpu % 2 == 0) alloc) env r0.loops 0 q).1,
             some (timedLoop (palloc_loop_body (cpu % 2 == 0) alloc) env r0.loops 0 q).2,
             (timedLoop (palloc_loop_body (cpu % 2 == 0) alloc) env r0.loops 0 q).1))
        = ({ r0 with step := if cpu % 2 == 0 then 1 else 0 }, some q, 0)
    rw [if_pos hg]

/-- Witness for c1_amended_guard_rejects_inside_worker at
loop_count = 2^31 on CPU 0 with a 4-slot ring. -/
theorem c1_amended_guard_rejects_inside_worker_witness :
    2 ^ 32 - 1 ≤ 2 * (2 ^ 31) ∧
    time_cross_cpu_ptr_ring 0 (fun _ q => q) ⟨2 ^ 31, 0, false, false, 0⟩
        (some (ptr_ring_init 4))
      = (⟨2 ^ 31, 1, false, false, 0⟩, some (ptr_ring_init 4), 0) :=
  ⟨by decide,
   (c1_amended_guard_rejects_inside_worker 0 (fun _ q => q) (fun _ => none)
      ⟨2 ^ 31, 0, false, false, 0⟩ (ptr_ring_init 4) (by decide)).1⟩

/-- C1 (counterexample): the claim that a configuration with
loop_count = 2^31 is rejected before any worker is spawned, with no
side effects and no workers started, is false: running the baseline
scenario with loops = 2^31 (run_flags bit 1 set, queue of 4 slots
prefilled with 2 entries) still spawns both workers — the record list
has two entries, one per spawned worker — and each spawned worker has
already written its role tag into the record (a side effect) before
the guard inside the worker rejects the run with return value 0 and
no start timestamp. -/
theorem c1_counterexample_workers_spawned :
    (run_bench_baseline_ptr_ring_cross_cpu 2 (2 ^ 31) 4 2
        (fun _ _ q => q) id).records.length = 2 ∧
    (run_bench_baseline_ptr_ring_cross_cpu 2 (2 ^ 31) 4 2
        (fun _ _ q => q) id).records.map
        (fun e => (e.1, e.2.1.step, e.2.1.startStamped, e.2.2))
      = [(0, 1, false, 0), (1, 0, false, 0)] := by
  constructor
  · rfl
  · rfl

theorem ptr_ring_worker_run_eq (cpu : Nat) (env : Nat → PtrRing → PtrRing)
    (r0 : TimeBenchRecord) (q : PtrRing) (hg : 2 * r0.loops < 2 ^ 32 - 1) :
    time_cross_cpu_ptr_ring cpu env r0 (some q)
      = ({ r0 with
           step := if cpu % 2 == 0 then 1 else 0,
           startStamped := true,
           stopStamped := true,
           loops_cnt := (timedLoop (ring_loop_body (cpu % 2 == 0) 43) env r0.loops 0 q).1 },
         some (timedLoop (ring_loop_body (cpu % 2 == 0) 43) env r0.loops 0 q).2,
         (timedLoop (ring_loop_body (cpu % 2 == 0) 43) env r0.loops 0 q).1) := by
  show (if 2 ^ 32 - 1 ≤ 2 * r0.loops then
          ({ r0 with step := if cpu % 2 == 0 then 1 else 0 }, some q, 0)
        else
          (time_bench_stop
             (time_bench_start { r0 with step := if cpu % 2 == 0 then 1 else 0 })
             (timedLoop (ring_loop_body (cpu % 2 == 0) 43) env r0.loops 0 q).1,
           some (timedLoop (ring_loop_body (cpu % 2 == 0) 43) env r0.loops 0 q).2,
           (timedLoop (ring_loop_body (cpu % 2 == 0) 43) env r0.loops 0 q).1)) = _
  rw [if_neg (by omega)]
  rfl

theorem palloc_worker_run_eq (cpu : Nat) (env : Nat → PtrRing → PtrRing)
    (alloc : Nat → Option Nat) (r0 : TimeBenchRecord) (q : PtrRing)
    (hg : 2 * r0.loops < 2 ^ 32 - 1) :
    time_cross_cpu_page_alloc_put cpu env alloc r0 (some q)
      = ({ r0 with
           step := if cpu % 2 == 0 then 1 else 0,
           startStamped := true,
           stopStamped := true,
           loops_cnt := (timedLoop (palloc_loop_body (cpu % 2 == 0) alloc) env r0.loops 0 q).1 },
         some (timedLoop (palloc_loop_body (cpu % 2 == 0) alloc) env r0.loops 0 q).2,
         (timedLoop (palloc_loop_body (cpu % 2 == 0) alloc) env r0.loops 0 q).1) := by
  show (if 2 ^ 32 - 1 ≤ 2 * r0.loops then
          ({ r0 with step := if cpu % 2 == 0 then 1 else 0 }, some q, 0)
        else
          (time_bench_stop
             (time_bench_start { r0 with step := if cpu % 2 == 0 then 1 else 0 })
             (timedLoop (palloc_loop_body (cpu % 2 == 0) alloc) env r0.loops 0 q).1,
           some (timedLoop (palloc_loop_body (cpu % 2 == 0) alloc) env r0.loops 0 q).2,
           (timedLoop (palloc_loop_body (cpu % 2 == 0) alloc) env r0.loops 0 q).1)) = _
  rw [if_neg (by omega)]
  rfl

/-- C2: For every worker loop (both worker functions, either role),
if the queue operation of iteration k fails — producer hits QueueFull
or consumer hits QueueEmpty, expressed as the loop body returning none
after k successful iterations — then the loop terminates immediately
with completed count (both the return value and the recorded
loops_cnt) equal to k, the number of iterations finished so far, which
is less than the requested count; and the stop timestamp is recorded
on this early-termination path just as on the normal-completion path,
where the completed count equals the full requested count. -/
theorem c2_early_termination_partial_count (cpu k : Nat)
    (env : Nat → PtrRing → PtrRing) (alloc : Nat → Option Nat)
    (r0 : TimeBenchRecord) (q qk : PtrRing)
    (hg : 2 * r0.loops < 2 ^ 32 - 1) :
    (runK (ring_loop_body (cpu % 2 == 0) 43) env k 0 q = some qk →
      ring_loop_body (cpu % 2 == 0) 43 k (env k qk) = none → k < r0.loops →
      (time_cross_cpu_ptr_ring cpu env r0 (some q)).2.2 = k ∧
      (time_cross_cpu_ptr_ring cpu env r0 (some q)).1.loops_cnt = k ∧
      (time_cross_cpu_ptr_ring cpu env r0 (some q)).1.stopStamped = true) ∧
    (runK (ring_loop_body (cpu % 2 == 0) 43) env r0.loops 0 q = some qk →
      (time_cross_cpu_ptr_ring cpu env r0 (some q)).2.2 = r0.loops ∧
      (time_cross_cpu_ptr_ring cpu env r0 (some q)).1.stopStamped = true) ∧
    (runK (palloc_loop_body (cpu % 2 == 0) alloc) env k 0 q = some qk →
      palloc_loop_body (cpu % 2 == 0) alloc k (env k qk) = none → k < r0.loops →
      (time_cross_cpu_page_alloc_put cpu env alloc r0 (some q)).2.2 = k ∧
      (time_cross_cpu_page_alloc_put cpu env alloc r0 (some q)).1.loops_cnt = k ∧
      (time_cross_cpu_page_alloc_put cpu env alloc r0 (some q)).1.stopStamped = true) ∧
    (runK (palloc_loop_body (cpu % 2 == 0) alloc) env r0.loops 0 q = some qk →
      (time_cross_cpu_page_alloc_put cpu env alloc r0 (some q)).2.2 = r0.loops ∧
      (time_cross_cpu_page_alloc_put cpu env alloc r0 (some q)).1.stopStamped = true) := by
  refine ⟨?_, ?_, ?_, ?_⟩
  · intro h1 h2 h3
    have h2z : ring_loop_body (cpu % 2 == 0) 43 (0 + k) (env (0 + k) qk) = none := by
      rw [Nat.zero_add]; exact h2
    have hloop := timedLoop_early h1 h2z h3
    rw [ptr_ring_worker_run_eq cpu env r0 q hg]
    simp [hloop]
  · intro h1
    have hloop := timedLoop_all h1
    rw [ptr_ring_worker_run_eq cpu env r0 q hg]
    simp [hloop]
  · intro h1 h2 h3
    have h2z : palloc_loop_body (cpu % 2 == 0) alloc (0 + k) (env (0 + k) qk) = none := by
      rw [Nat.zero_add]; exact h2
    have hloop := timedLoop_early h1 h2z h3
    rw [palloc_worker_run_eq cpu env alloc r0 q hg]
    simp [hloop]
  · intro h1
    have hloop := timedLoop_all h1
    rw [palloc_worker_run_eq cpu env alloc r0 q hg]
    simp [hloop]

/-- The concrete ring used by the c2 witness: 4 slots, the first two
prefilled with payloads 10 and 11, head 0, tail 2. -/
def c2ring : PtrRing :=
  ⟨4, fun j => if j < 2 then some (10 + j) else none, 0, 2⟩

/-- Witness for c2_early_termination_partial_count: a consumer (CPU 1)
asked for 5 loops on a ring holding 2 entries drains it and stops
early at count 2, stop recorded; a producer (CPU 0) asked for 2 loops
on the same ring completes normally at count 2, stop recorded. -/
theorem c2_early_termination_partial_count_witness :
    2 * (5 : Nat) < 2 ^ 32 - 1 ∧
    ((time_cross_cpu_ptr_ring 1 (fun _ q => q) ⟨5, 0, false, false, 0⟩ (some c2ring)).2.2 = 2 ∧
     (time_cross_cpu_ptr_ring 1 (fun _ q => q) ⟨5, 0, false, false, 0⟩ (some c2ring)).1.loops_cnt = 2 ∧
     (time_cross_cpu_ptr_ring 1 (fun _ q => q) ⟨5, 0, false, false, 0⟩ (some c2ring)).1.stopStamped = true) ∧
    ((time_cross_cpu_ptr_ring 0 (fun _ q => q) ⟨2, 0, false, false, 0⟩ (some c2ring)).2.2 = 2 ∧
     (time_cross_cpu_ptr_ring 0 (fun _ q => q) ⟨2, 0, false, false, 0⟩ (some c2ring)).1.stopStamped = true) ∧
    ((time_cross_cpu_page_alloc_put 1 (fun _ q => q) (fun _ => some 9)
        ⟨5, 0, false, false, 0⟩ (some c2ring)).2.2 = 2 ∧
     (time_cross_cpu_page_alloc_put 1 (fun _ q => q) (fun _ => some 9)
        ⟨5, 0, false, false, 0⟩ (some c2ring)).1.loops_cnt = 2 ∧
     (time_cross_cpu_page_alloc_put 1 (fun _ q => q) (fun _ => some 9)
        ⟨5, 0, false, false, 0⟩ (some c2ring)).1.stopStamped = true) ∧
    ((time_cross_cpu_page_alloc_put 0 (fun _ q => q) (fun _ => some 9)
        ⟨2, 0, false, false, 0⟩ (some c2ring)).2.2 = 2 ∧
     (time_cross_cpu_page_alloc_put 0 (fun _ q => q) (fun _ => some 9)
        ⟨2, 0, false, false, 0⟩ (some c2ring)).1.stopStamped = true) :=
  ⟨by decide,
   (c2_early_termination_partial_count 1 2 (fun _ q => q) (fun _ => some 9)
      ⟨5, 0, false, false, 0⟩ c2ring
      ((runK (ring_loop_body (1 % 2 == 0) 43) (fun _ q => q) 2 0 c2ring).getD (ptr_ring_init 0))
      (by decide)).1 (by rfl) (by rfl) (by decide),
   (c2_early_termination_partial_count 0 0 (fun _ q => q) (fun _ => some 9)
      ⟨2, 0, false, false, 0⟩ c2ring
      ((runK (ring_loop_body (0 % 2 == 0) 43) (fun _ q => q) 2 0 c2ring).getD (ptr_ring_init 0))
      (by decide)).2.1 (by rfl),
   (c2_early_termination_partial_count 1 2 (fun _ q => q) (fun _ => some 9)
      ⟨5, 0, false, false, 0⟩ c2ring
      ((runK (palloc_loop_body (1 % 2 == 0) (fun _ => some 9)) (fun _ q => q) 2 0 c2ring).getD
        (ptr_ring_init 0))
      (by decide)).2.2.1 (by rfl) (by rfl) (by decide),
   (c2_early_termination_partial_count 0 0 (fun _ q => q) (fun _ => some 9)
      ⟨2, 0, false, false, 0⟩ c2ring
      ((runK (palloc_loop_body (0 % 2 == 0) (fun _ => some 9)) (fun _ q => q) 2 0 c2ring).getD
        (ptr_ring_init 0))
      (by decide)).2.2.2 (by rfl)⟩

/-- C4: For any interleaving of produce and consume calls against the
bounded queue (single producer, single consumer, starting from the
empty ring of positive capacity), the successful consume results are
an initial segment of the successfully produced payloads: the number
M of successful consumes never exceeds the number N of successful
produces, and the list of consumed payloads equals the first M
produced payloads — so the i-th successful consume returns exactly the
payload stored by the i-th successful produce, for all i ≤ M (FIFO
order). -/
theorem c4_fifo_order (n : Nat) (ops : List QOp) (hn : 0 < n) :
    ((runOps ops (ptr_ring_init n)).2.2).length
      ≤ ((runOps ops (ptr_ring_init n)).2.1).length ∧
    (runOps ops (ptr_ring_init n)).2.2
      = ((runOps ops (ptr_ring_init n)).2.1).take
          ((runOps ops (ptr_ring_init n)).2.2).length := by
  obtain ⟨Lf, _, hcat⟩ := runOps_fifo_inv ops (ptr_ring_init n) [] (rep_init n hn)
  rw [List.nil_append] at hcat
  constructor
  · have hlen : ((runOps ops (ptr_ring_init n)).2.2).length + Lf.length
        = ((runOps ops (ptr_ring_init n)).2.1).length := by
      rw [← hcat, List.length_append]
    omega
  · rw [← hcat, List.take_left]

/-- Witness for c4_fifo_order: capacity 2 and a concrete interleaving
with a failed produce (full) and a failed consume (empty) in the
middle; the three successful consumes return 10, 11, 12 — the three
successfully produced payloads in order. -/
theorem c4_fifo_order_witness :
    (0 : Nat) < 2 ∧
    ((runOps [QOp.enq 10, QOp.deq, QOp.enq 11, QOp.enq 12, QOp.enq 13, QOp.deq,
              QOp.deq, QOp.deq] (ptr_ring_init 2)).2.2).length
      ≤ ((runOps [QOp.enq 10, QOp.deq, QOp.enq 11, QOp.enq 12, QOp.enq 13, QOp.deq,
              QOp.deq, QOp.deq] (ptr_ring_init 2)).2.1).length ∧
    (runOps [QOp.enq 10, QOp.deq, QOp.enq 11, QOp.enq 12, QOp.enq 13, QOp.deq,
              QOp.deq, QOp.deq] (ptr_ring_init 2)).2.2
      = ((runOps [QOp.enq 10, QOp.deq, QOp.enq 11, QOp.enq 12, QOp.enq 13, QOp.deq,
              QOp.deq, QOp.deq] (ptr_ring_init 2)).2.1).take
          ((runOps [QOp.enq 10, QOp.deq, QOp.enq 11, QOp.enq 12, QOp.enq 13, QOp.deq,
              QOp.deq, QOp.deq] (ptr_ring_init 2)).2.2).length :=
  ⟨by decide,
   (c4_fifo_order 2 [QOp.enq 10, QOp.deq, QOp.enq 11, QOp.enq 12, QOp.enq 13, QOp.deq,
      QOp.deq, QOp.deq] (by decide)).1,
   (c4_fifo_order 2 [QOp.enq 10, QOp.deq, QOp.enq 11, QOp.enq 12, QOp.enq 13, QOp.deq,
      QOp.deq, QOp.deq] (by decide)).2⟩

/-- C5 (counterexample): the claim that a configuration with
prefill ≥ capacity fails before any worker starts is false at
prefill = capacity: init_queue with q_size = 2 and prefill = 2
succeeds (the ring holds exactly capacity entries), and the baseline
scenario with that configuration goes on to run both workers. -/
theorem c5_counterexample_prefill_eq_capacity :
    (init_queue (fun _ => none) 2 2 true).1 = true ∧
    (run_bench_baseline_ptr_ring_cross_cpu 2 1 2 2 (fun _ _ q => q) id).workersRun = true ∧
    (run_bench_baseline_ptr_ring_cross_cpu 2 1 2 2 (fun _ _ q => q) id).records.length = 2 := by
  refine ⟨rfl, rfl, rfl⟩

/-- C5 (amended): prefill must be at most the capacity: for every
configuration with prefill strictly greater than capacity (capacity
positive), init_queue fails during prefill — the produce into the full
ring fails, the C analogue of a ConfigError — and the scenario
consequently never starts a worker: workersRun is false and no record
is produced.  At prefill = capacity the configuration is accepted (see
the counterexample theorem). -/
theorem c5_amended_prefill_gt_capacity_fails (alloc : Nat → Option Nat)
    (flags loops q_size prefill_cnt : Nat)
    (envs : Nat → Nat → PtrRing → PtrRing) (qFinal : PtrRing → PtrRing)
    (hpos : 0 < q_size) (hgt : q_size < prefill_cnt) :
    (init_queue alloc q_size prefill_cnt true).1 = false ∧
    (run_bench_baseline_ptr_ring_cross_cpu flags loops q_size prefill_cnt
        envs qFinal).workersRun = false ∧
    (run_bench_baseline_ptr_ring_cross_cpu flags loops q_size prefill_cnt
        envs qFinal).records = [] := by
  have hfail : ∀ a : Nat → Option Nat, (init_queue a q_size prefill_cnt true).1 = false := by
    intro a
    exact prefill_fake_fail (rep_init q_size hpos) (by simpa using hgt)
  refine ⟨hfail alloc, ?_, ?_⟩ <;>
  · unfold run_bench_baseline_ptr_ring_cross_cpu
    by_cases hb : flags.testBit 1 = false
    · simp [hb, ScenarioResult.skipped]
    · simp [hb, hfail]

/-- Witness for c5_amended_prefill_gt_capacity_fails at capacity 2 and
prefill 3 with run_flags bit 1 set. -/
theorem c5_amended_prefill_gt_capacity_fails_witness :
    (0 : Nat) < 2 ∧ (2 : Nat) < 3 ∧
    (init_queue (fun _ => none) 2 3 true).1 = false ∧
    (run_bench_baseline_ptr_ring_cross_cpu 2 1 2 3 (fun _ _ q => q) id).workersRun = false ∧
    (run_bench_baseline_ptr_ring_cross_cpu 2 1 2 3 (fun _ _ q => q) id).records = [] :=
  ⟨by decide, by decide,
   (c5_amended_prefill_gt_capacity_fails (fun _ => none) 2 1 2 3 (fun _ _ q => q) id
      (by decide) (by decide)).1,
   (c5_amended_prefill_gt_capacity_fails (fun _ => none) 2 1 2 3 (fun _ _ q => q) id
      (by decide) (by decide)).2.1,
   (c5_amended_prefill_gt_capacity_fails (fun _ => none) 2 1 2 3 (fun _ _ q => q) id
      (by decide) (by decide)).2.2⟩

/-- C6: evaluation of the code at the failing input of the
allocation-failure bug.  A producer worker (CPU 0) with 3 requested
loops on an 8-slot ring, whose allocator fails at iteration 1: the
source has no NULL check on the alloc_pages result inside the timed
loop, so the worker enqueues the NULL pointer (payload 0) into the
ring and keeps going — the run completes all 3 iterations (return
value, recorded count), slot 1 of the ring holds the NULL payload,
and the scenario is not aborted, contradicting the claim that an
allocation failure during the timed loop is fatal to the scenario. -/
theorem c6_alloc_failure_not_fatal_eval :
    (time_cross_cpu_page_alloc_put 0 (fun _ q => q)
        (fun i => if i == 1 then none else some (100 + i))
        ⟨3, 0, false, false, 0⟩ (some (ptr_ring_init 8))).2.2 = 3 ∧
    (time_cross_cpu_page_alloc_put 0 (fun _ q => q)
        (fun i => if i == 1 then none else some (100 + i))
        ⟨3, 0, false, false, 0⟩ (some (ptr_ring_init 8))).1.loops_cnt = 3 ∧
    (time_cross_cpu_page_alloc_put 0 (fun _ q => q)
        (fun i => if i == 1 then none else some (100 + i))
        ⟨3, 0, false, false, 0⟩ (some (ptr_ring_init 8))).1.stopStamped = true ∧
    ((time_cross_cpu_page_alloc_put 0 (fun _ q => q)
        (fun i => if i == 1 then none else some (100 + i))
        ⟨3, 0, false, false, 0⟩ (some (ptr_ring_init 8))).2.1).map (fun q => q.slots 1)
      = some (some 0) := by
  refine ⟨rfl, rfl, rfl, rfl⟩

/-- C7: When the real-payload scenario fails during prefill (the
injected allocator returns NULL at prefill index k after k successful
allocations), the scenario is aborted — init reports failure, no
worker is run, no record is produced — and its partially built queue
is cleaned up: the teardown runs with the destructor and drains
exactly the k payloads placed so far, in order.  Scenarios are
independent: inside run_timing_tests the first two scenarios' results
do not depend on the failing allocator at all — the baseline
scenario still runs its workers whenever its own run_flags bit is set
(the hardcoded prefill 8000 fits the hardcoded capacity 32000). -/
theorem c7_prefill_failure_aborts_scenario_others_run
    (flags loops q_size prefill_cnt k : Nat) (f : Nat → Nat)
    (allocInit : Nat → Option Nat) (allocLoop : Nat → Nat → Option Nat)
    (allocS : Nat → Option Nat)
    (envs envsB envsP : Nat → Nat → PtrRing → PtrRing)
    (qF qFB qFP : PtrRing → PtrRing)
    (hbit : flags.testBit 2 = true) (hpos : 0 < q_size) (hk : k ≤ q_size)
    (hsome : ∀ j, j < k → allocInit j = some (f j))
    (hnone : allocInit k = none) (hklt : k < prefill_cnt) :
    ((run_bench_cross_cpu_page_alloc_put flags loops q_size prefill_cnt
        allocInit allocLoop envs qF).ran = true ∧
     (run_bench_cross_cpu_page_alloc_put flags loops q_size prefill_cnt
        allocInit allocLoop envs qF).initOk = false ∧
     (run_bench_cross_cpu_page_alloc_put flags loops q_size prefill_cnt
        allocInit allocLoop envs qF).workersRun = false ∧
     (run_bench_cross_cpu_page_alloc_put flags loops q_size prefill_cnt
        allocInit allocLoop envs qF).records = [] ∧
     (run_bench_cross_cpu_page_alloc_put flags loops q_size prefill_cnt
        allocInit allocLoop envs qF).cleanedUp = true ∧
     (run_bench_cross_cpu_page_alloc_put flags loops q_size prefill_cnt
        allocInit allocLoop envs qF).released = (List.range k).map f) ∧
    ((run_timing_tests flags loops allocS allocInit allocLoop
        envsB envsP qFB qFP).1 = run_bench_order0_compare flags loops allocS ∧
     (run_timing_tests flags loops allocS allocInit allocLoop
        envsB envsP qFB qFP).2.1
       = run_bench_baseline_ptr_ring_cross_cpu flags loops 32000 8000 envsB qFB ∧
     (run_timing_tests flags loops allocS allocInit allocLoop
        envsB envsP qFB qFP).2.1.workersRun = flags.testBit 1) := by
  have hsome0 : ∀ j, j < k → allocInit (0 + j) = some (f (0 + j)) := by
    intro j hj
    rw [Nat.zero_add]
    exact hsome j hj
  have hnone0 : allocInit (0 + k) = none := by rw [Nat.zero_add]; exact hnone
  obtain ⟨qk, hpre, hrepk⟩ :=
    prefill_real_fail (f := f) (rep_init q_size hpos) (by simpa using hk)
      hsome0 hnone0 hklt
  have hinit : init_queue allocInit q_size prefill_cnt false = (false, qk) := hpre
  have hrel : ptr_ring_cleanup qk (some destructor_put_page) = (List.range k).map f := by
    rw [cleanup_of_rep hrepk]
    simp
  constructor
  · refine ⟨?_, ?_, ?_, ?_, ?_, ?_⟩ <;>
    · simp [run_bench_cross_cpu_page_alloc_put, hbit, hinit, hrel]
  · refine ⟨rfl, rfl, ?_⟩
    show (run_bench_baseline_ptr_ring_cross_cpu flags loops 32000 8000
        envsB qFB).workersRun = flags.testBit 1
    by_cases hb : flags.testBit 1 = false
    · simp [run_bench_baseline_ptr_ring_cross_cpu, hb, ScenarioResult.skipped]
    · have hb2 : flags.testBit 1 = true := by simpa using hb
      have hok : (init_queue (fun _ => none) 32000 8000 true).1 = true := by
        obtain ⟨qf, heq, -⟩ := @prefill_fake_ok (fun _ => none) 8000 0 (ptr_ring_init 32000)
          [] (rep_init 32000 (by norm_num)) (by decide)
        unfold init_queue
        rw [heq]
      simp [run_bench_baseline_ptr_ring_cross_cpu, hb2, hok]

/-- Witness for c7_prefill_failure_aborts_scenario_others_run:
capacity 4, prefill 3, allocator yielding pages 100 and 101 then
failing at index 2; run_flags 6 (bits 1 and 2 set). -/
theorem c7_prefill_failure_aborts_scenario_others_run_witness :
    (Nat.testBit 6 2 = true ∧ (0 : Nat) < 4 ∧ (2 : Nat) ≤ 4 ∧
      (∀ j, j < 2 → (fun i => if i < 2 then some (100 + i) else none) j = some (100 + j)) ∧
      (fun i => if i < 2 then some (100 + i) else none) 2 = none ∧ (2 : Nat) < 3) ∧
    (run_bench_cross_cpu_page_alloc_put 6 1 4 3
        (fun i => if i < 2 then some (100 + i) else none) (fun _ _ => some 9)
        (fun _ _ q => q) id).released = (List.range 2).map (fun j => 100 + j) ∧
    (run_timing_tests 6 1 (fun _ => some 9)
        (fun i => if i < 2 then some (100 + i) else none) (fun _ _ => some 9)
        (fun _ _ q => q) (fun _ _ q => q) id id).2.1.workersRun = Nat.testBit 6 1 :=
  ⟨⟨by decide, by decide, by decide, by decide, by decide, by decide⟩,
   (c7_prefill_failure_aborts_scenario_others_run 6 1 4 3 2 (fun j => 100 + j)
      (fun i => if i < 2 then some (100 + i) else none) (fun _ _ => some 9)
      (fun _ => some 9) (fun _ _ q => q) (fun _ _ q => q) (fun _ _ q => q) id id id
      (by decide) (by decide) (by decide) (by decide) (by decide) (by decide)).1.2.2.2.2.2,
   (c7_prefill_failure_aborts_scenario_others_run 6 1 4 3 2 (fun j => 100 + j)
      (fun i => if i < 2 then some (100 + i) else none) (fun _ _ => some 9)
      (fun _ => some 9) (fun _ _ q => q) (fun _ _ q => q) (fun _ _ q => q) id id id
      (by decide) (by decide) (by decide) (by decide) (by decide) (by decide)).2.2.2⟩

/-- C8: Every scenario function executes its benchmark iff its
assigned bit is set in the run_flags bitmask (bit 0:
run_bench_order0_compare, bit 1: run_bench_baseline_ptr_ring_cross_cpu,
bit 2: run_bench_cross_cpu_page_alloc_put).  When the bit is clear the
scenario returns immediately with no work at all — no queue
construction, no workers, no records, no cleanup; when it is set the
scenario runs. -/
theorem c8_run_flags_gate (flags loops q_size prefill_cnt : Nat)
    (allocS allocI : Nat → Option Nat) (allocL : Nat → Nat → Option Nat)
    (envs envsP : Nat → Nat → PtrRing → PtrRing) (qF qFP : PtrRing → PtrRing) :
    (flags.testBit 0 = false → run_bench_order0_compare flags loops allocS = none) ∧
    (flags.testBit 0 = true →
      (run_bench_order0_compare flags loops allocS).isSome = true) ∧
    (flags.testBit 1 = false →
      run_bench_baseline_ptr_ring_cross_cpu flags loops q_size prefill_cnt envs qF
        = ScenarioResult.skipped) ∧
    (flags.testBit 1 = true →
      (run_bench_baseline_ptr_ring_cross_cpu flags loops q_size prefill_cnt
          envs qF).ran = true) ∧
    (flags.testBit 2 = false →
      run_bench_cross_cpu_page_alloc_put flags loops q_size prefill_cnt
          allocI allocL envsP qFP = ScenarioResult.skipped) ∧
    (flags.testBit 2 = true →
      (run_bench_cross_cpu_page_alloc_put flags loops q_size prefill_cnt
          allocI allocL envsP qFP).ran = true) := by
  refine ⟨?_, ?_, ?_, ?_, ?_, ?_⟩
  · intro h
    simp [run_bench_order0_compare, h]
  · intro h
    simp [run_bench_order0_compare, h]
  · intro h
    simp [run_bench_baseline_ptr_ring_cross_cpu, h]
  · intro h
    by_cases hi : (init_queue (fun _ => none) q_size prefill_cnt true).1
    · simp [run_bench_baseline_ptr_ring_cross_cpu, h, hi]
    · simp [run_bench_baseline_ptr_ring_cross_cpu, h, hi]
  · intro h
    simp [run_bench_cross_cpu_page_alloc_put, h]
  · intro h
    by_cases hi : (init_queue allocI q_size prefill_cnt false).1
    · simp [run_bench_cross_cpu_page_alloc_put, h, hi]
    · simp [run_bench_cross_cpu_page_alloc_put, h, hi]

/-- Witness for c8_run_flags_gate at run_flags 5 (bits 0 and 2 set,
bit 1 clear) and at run_flags 2 (only bit 1 set). -/
theorem c8_run_flags_gate_witness :
    (run_bench_order0_compare 5 1 (fun _ => some 9)).isSome = true ∧
    run_bench_baseline_ptr_ring_cross_cpu 5 1 4 2 (fun _ _ q => q) id
      = ScenarioResult.skipped ∧
    (run_bench_cross_cpu_page_alloc_put 5 1 4 2 (fun _ => some 9) (fun _ _ => some 9)
        (fun _ _ q => q) id).ran = true ∧
    run_bench_order0_compare 2 1 (fun _ => some 9) = none ∧
    (run_bench_baseline_ptr_ring_cross_cpu 2 1 4 2 (fun _ _ q => q) id).ran = true ∧
    run_bench_cross_cpu_page_alloc_put 2 1 4 2 (fun _ => some 9) (fun _ _ => some 9)
        (fun _ _ q => q) id = ScenarioResult.skipped :=
  ⟨(c8_run_flags_gate 5 1 4 2 (fun _ => some 9) (fun _ => some 9) (fun _ _ => some 9)
      (fun _ _ q => q) (fun _ _ q => q) id id).2.1 (by decide),
   (c8_run_flags_gate 5 1 4 2 (fun _ => some 9) (fun _ => some 9) (fun _ _ => some 9)
      (fun _ _ q => q) (fun _ _ q => q) id id).2.2.1 (by decide),
   (c8_run_flags_gate 5 1 4 2 (fun _ => some 9) (fun _ => some 9) (fun _ _ => some 9)
      (fun _ _ q => q) (fun _ _ q => q) id id).2.2.2.2.2 (by decide),
   (c8_run_flags_gate 2 1 4 2 (fun _ => some 9) (fun _ => some 9) (fun _ _ => some 9)
      (fun _ _ q => q) (fun _ _ q => q) id id).1 (by decide),
   (c8_run_flags_gate 2 1 4 2 (fun _ => some 9) (fun _ => some 9) (fun _ _ => some 9)
      (fun _ _ q => q) (fun _ _ q => q) id id).2.2.2.1 (by decide),
   (c8_run_flags_gate 2 1 4 2 (fun _ => some 9) (fun _ => some 9) (fun _ _ => some 9)
      (fun _ _ q => q) (fun _ _ q => q) id id).2.2.2.2.1 (by decide)⟩

/-- C10: The release callback at queue teardown is
scenario-dependent.  The baseline sentinel scenario always cleans up
with a NULL destructor: no payload is ever released, on every path
(skipped, init failure, normal).  The real-payload scenario cleans up
with destructor_put_page, and the drain applies it to exactly the
remaining entries: for any ring holding payload list L, the cleanup
with destructor_put_page releases exactly L (once per entry), while a
cleanup with no destructor releases nothing. -/
theorem c10_destructor_per_scenario (flags loops q_size prefill_cnt : Nat)
    (allocI : Nat → Option Nat) (allocL : Nat → Nat → Option Nat)
    (envs envsP : Nat → Nat → PtrRing → PtrRing) (qF qFP : PtrRing → PtrRing)
    (q : PtrRing) (L : List Nat) :
    (run_bench_baseline_ptr_ring_cross_cpu flags loops q_size prefill_cnt
        envs qF).destructorUsed = false ∧
    (run_bench_baseline_ptr_ring_cross_cpu flags loops q_size prefill_cnt
        envs qF).released = [] ∧
    ptr_ring_cleanup q none = [] ∧
    (RingRep q L → ptr_ring_cleanup q (some destructor_put_page) = L) ∧
    (flags.testBit 2 = true →
      (run_bench_cross_cpu_page_alloc_put flags loops q_size prefill_cnt
          allocI allocL envsP qFP).destructorUsed = true ∧
      (run_bench_cross_cpu_page_alloc_put flags loops q_size prefill_cnt
          allocI allocL envsP qFP).released
        = ptr_ring_cleanup
            (if (init_queue allocI q_size prefill_cnt false).1
             then qFP (init_queue allocI q_size prefill_cnt false).2
             else (init_queue allocI q_size prefill_cnt false).2)
            (some destructor_put_page)) := by
  refine ⟨?_, ?_, cleanup_none q, fun h => cleanup_of_rep h, ?_⟩
  · unfold run_bench_baseline_ptr_ring_cross_cpu
    by_cases hb : flags.testBit 1 = false
    · simp [hb, ScenarioResult.skipped]
    · by_cases hi : (init_queue (fun _ => none) q_size prefill_cnt true).1
      · simp [hb, hi]
      · simp [hb, hi]
  · unfold run_bench_baseline_ptr_ring_cross_cpu
    by_cases hb : flags.testBit 1 = false
    · simp [hb, ScenarioResult.skipped]
    · by_cases hi : (init_queue (fun _ => none) q_size prefill_cnt true).1
      · simp [hb, hi, cleanup_none]
      · simp [hb, hi, cleanup_none]
  · intro hbit
    unfold run_bench_cross_cpu_page_alloc_put
    by_cases hi : (init_queue allocI q_size prefill_cnt false).1
    · simp [hbit, hi]
    · simp [hbit, hi]

/-- Witness for c10_destructor_per_scenario: a 2-slot ring holding the
single payload 5, and run_flags 4 (bit 2 set) with an always-failing
allocator so the page scenario drains its (empty) partial queue with
the destructor. -/
theorem c10_destructor_per_scenario_witness :
    RingRep ⟨2, fun j => if j = 0 then some 5 else none, 0, 1⟩ [5] ∧
    ptr_ring_cleanup ⟨2, fun j => if j = 0 then some 5 else none, 0, 1⟩
        (some destructor_put_page) = [5] ∧
    Nat.testBit 4 2 = true ∧
    (run_bench_cross_cpu_page_alloc_put 4 1 2 1 (fun _ => none) (fun _ _ => some 9)
        (fun _ _ q => q) id).destructorUsed = true :=
  ⟨by decide, by decide, by decide,
   ((c10_destructor_per_scenario 4 1 2 1 (fun _ => none) (fun _ _ => some 9)
      (fun _ _ q => q) (fun _ _ q => q) id id
      ⟨2, fun j => if j = 0 then some 5 else none, 0, 1⟩ [5]).2.2.2.2 (by decide)).1⟩
